import Mathlib

/-!
Shallow embedding of `src/logmanager.c` (utils_simple_logmanager).

The logger is a process-wide singleton.  The embedding keeps the whole process
state that the source touches in one record, `World`:

* the heap object behind `SimpleLogManagerSingleton` (absent = `NULL`),
* the process-wide dispatch table `AL2O3_Logger`,
* the handles the OS file layer currently has open,
* the ordered trace of observable actions (mutex operations, stores to
  `lastMessage`, debug-channel writes, file operations).

C strings are represented by their content (`String`, one character standing
for one byte), `NULL` strings by `Option`.  File handles are pointer values
(`Nat`, `0` = `NULL`).  Everything the source asks from its surroundings
within one call (the text returned by `ctime`, the result of `Os_FileOpen`,
the working directory, whether `calloc` and `Os_MutexCreate` succeed, the
expansion of `__FILE__`) is supplied by an `Env` record.  A failed `ASSERT`
makes an operation return `none`.  Only one logger can be live, so the handle
argument of the public functions is the live singleton; a call without a live
logger is a call with a `NULL` or stale handle and fails its `ASSERT`.

The character arrays of the source have 2048 bytes each and are written with
unchecked `sprintf` and `strcpy`.  A text of 2048 characters or more does not
fit (the terminator needs the last byte); the model records every such write
as `Event.overrun` and, where the layout of the record fixes what is hit,
applies the damage: `filePath` follows `lastMessage` in the record, so the
bytes written past `lastMessage`, terminator included, land in `filePath`, and
a text read from `lastMessage` that ran over continues through
`filePath`.  What an overrun of a local array or of the end of the record hits
is not fixed by the source; there the model only records the overrun.
-/

namespace LogManager

/-! ## Text formatting -/

/-- Argument of a `sprintf` conversion. -/
inductive FormatArg where
  | str (s : String)
  | int (i : Int)
deriving DecidableEq, Repr

/-- Decimal text of a C `int`, as written by `%i`. -/
def decimal (i : Int) : String := toString i

/-- The text `sprintf` produces for a format with `%s` and `%i` conversions;
every other character of the format is copied. -/
def sprintfChars : List Char → List FormatArg → List Char
  | [], _ => []
  | [c], _ => [c]
  | c :: d :: fmt, args =>
    if c = '%' ∧ d = 's' then
      match args with
      | FormatArg.str s :: rest => s.data ++ sprintfChars fmt rest
      | _ => sprintfChars fmt args
    else if c = '%' ∧ d = 'i' then
      match args with
      | FormatArg.int i :: rest => (decimal i).data ++ sprintfChars fmt rest
      | _ => sprintfChars fmt args
    else c :: sprintfChars (d :: fmt) args

/-- Same as `sprintfChars`, on strings. -/
def sprintf (fmt : String) (args : List FormatArg) : String :=
  String.mk (sprintfChars fmt.data args)

/-! ## Data model -/

/-- File handle of the OS layer: a pointer value, `0` is `NULL`. -/
abbrev Os_FileHandle := Nat

/-- Modelled from the spec: `Os_FileIsOpen` belongs to the OS file layer, which
is not part of the sources; the handle is "an optional open file resource;
absent means no file sink", so a handle denotes an open file exactly when it
is not `NULL`. -/
def Os_FileIsOpen (handle : Os_FileHandle) : Bool := handle != 0

/-- Value of a slot of the dispatch table: one of the five static functions of
`logmanager.c`, or any other function (identified by its address). -/
inductive Handler where
  | ErrorMsg
  | WarningMsg
  | InfoMsg
  | DebugMsg
  | FailedAssert
  | foreign (addr : Nat)
deriving DecidableEq, Repr

/-- The process-wide table of five level slots (`AL2O3_Logger_t`). -/
structure AL2O3_Logger_t where
  errorMsg : Handler
  warningMsg : Handler
  infoMsg : Handler
  debugMsg : Handler
  failedAssert : Handler
deriving DecidableEq, Repr

/-- The logger record (`struct SimpleLogManager`); the mutex itself carries no
data and is visible through the trace only. -/
structure SimpleLogManager where
  logFile : Os_FileHandle
  recordTimestamp : Bool
  fileLineQuiet : Bool
  infoQuiet : Bool
  warningQuiet : Bool
  errorQuiet : Bool
  failedAssertQuiet : Bool
  debugMsgQuiet : Bool
  oldLogger : AL2O3_Logger_t
  logger : AL2O3_Logger_t
  lastMessage : String
  filePath : String
deriving DecidableEq, Repr

/-- Observable actions, in the order the code performs them. -/
inductive Event where
  | mutexAcquire
  | mutexRelease
  | storeLastMessage (text : String)
  | outputDebug (text : String)
  | fileOpen (path : String) (result : Os_FileHandle)
  | fileWrite (handle : Os_FileHandle) (bytes : String)
  | fileFlush (handle : Os_FileHandle)
  | fileClose (handle : Os_FileHandle)
  | foreignCall (addr : Nat) (file : Option String) (line : Int) (function msg : String)
  | overrun (array : String)
deriving DecidableEq, Repr

/-- Process state. -/
structure World where
  SimpleLogManagerSingleton : Option SimpleLogManager
  AL2O3_Logger : AL2O3_Logger_t
  openFiles : List Os_FileHandle
  trace : List Event
deriving DecidableEq, Repr

/-- What the surroundings answer during one call. -/
structure Env where
  ctimeResult : String
  openResult : Os_FileHandle
  currentDir : String
  callocOk : Bool
  mutexCreateOk : Bool
  sourceFile : String
deriving DecidableEq, Repr

/-- Capacity of `lastMessage`, `filePath` and the local buffers. -/
def bufferSize : Nat := 2048

/-! ## External collaborators: each one records its action -/

def World.emit (e : Event) (w : World) : World :=
  { w with trace := w.trace ++ [e] }

def Os_MutexAcquire (w : World) : World := w.emit Event.mutexAcquire

def Os_MutexRelease (w : World) : World := w.emit Event.mutexRelease

def AL2O3_OutputDebug (text : String) (w : World) : World :=
  w.emit (Event.outputDebug text)

def Os_FileWrite (handle : Os_FileHandle) (bytes : String) (w : World) : World :=
  w.emit (Event.fileWrite handle bytes)

def Os_FileFlush (handle : Os_FileHandle) (w : World) : World :=
  w.emit (Event.fileFlush handle)

/-- Opening for write: the OS answers `env.openResult`; a handle other than
`NULL` is open from now on. -/
def Os_FileOpen (env : Env) (path : String) (w : World) : Os_FileHandle × World :=
  (env.openResult,
   { w with
     openFiles := if env.openResult != 0 then env.openResult :: w.openFiles else w.openFiles
     trace := w.trace ++ [Event.fileOpen path env.openResult] })

def Os_FileClose (handle : Os_FileHandle) (w : World) : World :=
  { w with openFiles := w.openFiles.erase handle
           trace := w.trace ++ [Event.fileClose handle] }

/-- Store into the live logger record. -/
def World.setLogger (lm : SimpleLogManager) (w : World) : World :=
  { w with SimpleLogManagerSingleton := some lm }

/-! ## The clock text

`GetTimeStamp` takes its text from `ctime(&sysTime)`, which ISO C defines as
`asctime(localtime(&sysTime))`, and `asctime` by the format
`"%.3s %.3s%3d %.2d:%.2d:%.2d %d\n"` applied to the name of the weekday, the
name of the month, the day, hour, minute, second and `1900 + tm_year`. -/

/-- A text fits an array of `bufferSize` bytes when it leaves a byte for the
terminator. -/
def fits (text : String) : Bool := text.length < bufferSize

/-- `strcpy(logManager->lastMessage, text)`.  `filePath` is the next member of
the record: when the text does not fit, its characters from the 2048th on and
its terminator are written over `filePath`. -/
def SimpleLogManager.strcpy_lastMessage (text : String) (lm : SimpleLogManager) :
    SimpleLogManager :=
  { lm with
    lastMessage := text
    filePath := if fits text then lm.filePath else String.mk (text.data.drop bufferSize) }

/-- `strcpy(logManager->filePath, text)`.  A `lastMessage` that ran over has no
terminator of its own: read as a text it continues through `filePath`. -/
def SimpleLogManager.strcpy_filePath (text : String) (lm : SimpleLogManager) :
    SimpleLogManager :=
  { lm with
    filePath := text
    lastMessage :=
      if fits lm.lastMessage then lm.lastMessage
      else String.mk (lm.lastMessage.data.take bufferSize ++ text.data) }

/-- Record an overrun of `array` when `text` does not fit it. -/
def World.noteOverrun (array : String) (text : String) (w : World) : World :=
  if fits text then w else w.emit (Event.overrun array)

/-! ## `logmanager.c` -/

/-- `GetTimeStamp`: copies the text of `ctime` into `timeBuf[256]`, asserts it
is shorter than 256 and overwrites every character of code 10 or 14 with a
space. -/
def GetTimeStamp (env : Env) : Option String :=
  let outString := env.ctimeResult
  let timeLen := outString.length
  if timeLen < 256 then
    some (String.mk (outString.data.map fun c => if c.toNat = 10 ∨ c.toNat = 14 then ' ' else c))
  else none

/-- Lines 59-72 of `SimpleLogManager_Msg`: the text in `buffer` when the mutex
is about to be taken, and whether one of the local arrays `buffer[2048]` and
`buffer2[2048]` was overrun on the way. -/
def SimpleLogManager_Msg_buffer (env : Env) (logManager : SimpleLogManager) (level : String)
    (file : Option String) (line : Int) (function msg : String) : Option (String × Bool) :=
  let buffer :=
    match file with
    | some f =>
      if logManager.fileLineQuiet = false then
        sprintf "%s: %s(%i) - %s: %s\n"
          [FormatArg.str level, FormatArg.str f, FormatArg.int line, FormatArg.str function,
           FormatArg.str msg]
      else sprintf "%s: %s\n" [FormatArg.str level, FormatArg.str msg]
    | none => sprintf "%s: %s\n" [FormatArg.str level, FormatArg.str msg]
  if logManager.recordTimestamp then
    match GetTimeStamp env with
    | some timeBuf =>
      let buffer2 := sprintf "[%s] %s" [FormatArg.str timeBuf, FormatArg.str buffer]
      some (buffer2, !fits buffer || !fits buffer2)
    | none => none
  else some (buffer, !fits buffer)

/-- `SimpleLogManager_Msg`, called on the live logger. -/
def SimpleLogManager_Msg (env : Env) (level : String) (file : Option String) (line : Int)
    (function msg : String) (w : World) : Option World :=
  match w.SimpleLogManagerSingleton with
  | none => none
  | some logManager =>
    match SimpleLogManager_Msg_buffer env logManager level file line function msg with
    | none => none
    | some (buffer, overrun) =>
      let w0 := if overrun then w.emit (Event.overrun "buffer") else w
      let w1 := Os_MutexAcquire w0
      let w2 := ((w1.setLogger (logManager.strcpy_lastMessage buffer)).emit
                  (Event.storeLastMessage buffer)).noteOverrun "lastMessage" buffer
      let w3 := AL2O3_OutputDebug buffer w2
      let w4 :=
        if Os_FileIsOpen logManager.logFile then
          Os_FileFlush logManager.logFile (Os_FileWrite logManager.logFile buffer w3)
        else w3
      some (Os_MutexRelease w4)

/-- `SimpleLogManager_CloseLogFile`; `filePath[0] = 0` leaves the empty text in
`filePath`, as `strcpy(filePath, "")` does. -/
def SimpleLogManager_CloseLogFile (w : World) : Option World :=
  match w.SimpleLogManagerSingleton with
  | none => none
  | some logManager =>
    if Os_FileIsOpen logManager.logFile then
      some ((Os_FileClose logManager.logFile w).setLogger
        { logManager.strcpy_filePath "" with logFile := 0 })
    else some w

def SimpleLogManager_SetRecordTimeStamp (enable : Bool) (w : World) : Option World :=
  match w.SimpleLogManagerSingleton with
  | none => none
  | some logManager => some (w.setLogger { logManager with recordTimestamp := enable })

def SimpleLogManager_GetRecordTimeStamp (logManager : SimpleLogManager) : Bool :=
  logManager.recordTimestamp

def SimpleLogManager_SetFileLineQuiet (enable : Bool) (w : World) : Option World :=
  match w.SimpleLogManagerSingleton with
  | none => none
  | some logManager => some (w.setLogger { logManager with fileLineQuiet := enable })

def SimpleLogManager_IsFileLineQuiet (logManager : SimpleLogManager) : Bool :=
  logManager.fileLineQuiet

def SimpleLogManager_SetInfoQuiet (enable : Bool) (w : World) : Option World :=
  match w.SimpleLogManagerSingleton with
  | none => none
  | some logManager => some (w.setLogger { logManager with infoQuiet := enable })

def SimpleLogManager_IsInfoQuiet (logManager : SimpleLogManager) : Bool :=
  logManager.infoQuiet

def SimpleLogManager_SetWarningQuiet (enable : Bool) (w : World) : Option World :=
  match w.SimpleLogManagerSingleton with
  | none => none
  | some logManager => some (w.setLogger { logManager with warningQuiet := enable })

def SimpleLogManager_IsWarningQuiet (logManager : SimpleLogManager) : Bool :=
  logManager.warningQuiet

def SimpleLogManager_SetErrorQuiet (enable : Bool) (w : World) : Option World :=
  match w.SimpleLogManagerSingleton with
  | none => none
  | some logManager => some (w.setLogger { logManager with errorQuiet := enable })

def SimpleLogManager_IsErrorQuiet (logManager : SimpleLogManager) : Bool :=
  logManager.errorQuiet

def SimpleLogManager_SetFailedAssertQuiet (enable : Bool) (w : World) : Option World :=
  match w.SimpleLogManagerSingleton with
  | none => none
  | some logManager => some (w.setLogger { logManager with failedAssertQuiet := enable })

def SimpleLogManager_IsFailedAssertQuiet (logManager : SimpleLogManager) : Bool :=
  logManager.failedAssertQuiet

def SimpleLogManager_SetDebugMsgQuiet (enable : Bool) (w : World) : Option World :=
  match w.SimpleLogManagerSingleton with
  | none => none
  | some logManager => some (w.setLogger { logManager with debugMsgQuiet := enable })

def SimpleLogManager_IsDebugMsgQuiet (logManager : SimpleLogManager) : Bool :=
  logManager.debugMsgQuiet

def SimpleLogManager_InfoMsg (env : Env) (file : Option String) (line : Int)
    (function msg : String) (w : World) : Option World :=
  match w.SimpleLogManagerSingleton with
  | none => none
  | some logManager =>
    if SimpleLogManager_IsInfoQuiet logManager then some w
    else SimpleLogManager_Msg env "INFO " file line function msg w

def SimpleLogManager_WarningMsg (env : Env) (file : Option String) (line : Int)
    (function msg : String) (w : World) : Option World :=
  match w.SimpleLogManagerSingleton with
  | none => none
  | some logManager =>
    if SimpleLogManager_IsWarningQuiet logManager then some w
    else SimpleLogManager_Msg env "WARN " file line function msg w

def SimpleLogManager_ErrorMsg (env : Env) (file : Option String) (line : Int)
    (function msg : String) (w : World) : Option World :=
  match w.SimpleLogManagerSingleton with
  | none => none
  | some logManager =>
    if SimpleLogManager_IsErrorQuiet logManager then some w
    else SimpleLogManager_Msg env "ERROR" file line function msg w

def SimpleLogManager_DebugMsg (env : Env) (file : Option String) (line : Int)
    (function msg : String) (w : World) : Option World :=
  match w.SimpleLogManagerSingleton with
  | none => none
  | some logManager =>
    if SimpleLogManager_IsDebugMsgQuiet logManager then some w
    else SimpleLogManager_Msg env "DEBUG" file line function msg w

def SimpleLogManager_FailedAssert (env : Env) (file : Option String) (line : Int)
    (function msg : String) (w : World) : Option World :=
  match w.SimpleLogManagerSingleton with
  | none => none
  | some logManager =>
    if SimpleLogManager_IsFailedAssertQuiet logManager then some w
    else SimpleLogManager_Msg env "ASSERT" file line function msg w

/-- Call through a function pointer held in a slot of the dispatch table. -/
def Handler.call (h : Handler) (env : Env) (file : Option String) (line : Int)
    (function msg : String) (w : World) : Option World :=
  match h with
  | Handler.ErrorMsg => SimpleLogManager_ErrorMsg env file line function msg w
  | Handler.WarningMsg => SimpleLogManager_WarningMsg env file line function msg w
  | Handler.InfoMsg => SimpleLogManager_InfoMsg env file line function msg w
  | Handler.DebugMsg => SimpleLogManager_DebugMsg env file line function msg w
  | Handler.FailedAssert => SimpleLogManager_FailedAssert env file line function msg w
  | Handler.foreign addr => some (w.emit (Event.foreignCall addr file line function msg))

/-- Modelled from the spec: the `LOGINFOF` macro comes from the platform
headers, which are not part of the sources.  It formats its arguments and
hands the text, with the place of the call, to the info slot of the
process-wide dispatch table ("subject to the normal quiet-filtering and
formatting pipeline").  The array the macro formats into is not known from the
sources and has no capacity here. -/
def LOGINFOF (env : Env) (line : Int) (function fmt : String) (args : List FormatArg)
    (w : World) : Option World :=
  w.AL2O3_Logger.infoMsg.call env (some env.sourceFile) line function (sprintf fmt args) w

/-- Modelled from the spec: the `LOGERRORF` macro, as `LOGINFOF`, for the
error slot. -/
def LOGERRORF (env : Env) (line : Int) (function fmt : String) (args : List FormatArg)
    (w : World) : Option World :=
  w.AL2O3_Logger.errorMsg.call env (some env.sourceFile) line function (sprintf fmt args) w

/-- `SimpleLogManager_UseFileForLog`. -/
def SimpleLogManager_UseFileForLog (env : Env) (fileName : String) (w : World) : Option World :=
  match w.SimpleLogManagerSingleton with
  | none => none
  | some logManager =>
    if fileName = logManager.filePath then some w
    else
      match (if Os_FileIsOpen logManager.logFile then SimpleLogManager_CloseLogFile w
             else some w) with
      | none => none
      | some w1 =>
        match w1.SimpleLogManagerSingleton with
        | none => none
        | some lm1 =>
          let (handle, w2) := Os_FileOpen env fileName w1
          let lm2 := { lm1 with logFile := handle }
          if handle != 0 && Os_FileIsOpen handle then
            LOGINFOF env 160 "SimpleLogManager_UseFileForLog" "Opened log file %s"
              [FormatArg.str fileName]
              ((w2.setLogger (lm2.strcpy_filePath fileName)).noteOverrun "filePath" fileName)
          else
            LOGERRORF env 162 "SimpleLogManager_UseFileForLog" "Failed to create log file %s"
              [FormatArg.str fileName] (w2.setLogger lm2)

/-- The table `SimpleLogManager_Alloc` installs. -/
def ownLogger : AL2O3_Logger_t :=
  { errorMsg := Handler.ErrorMsg
    warningMsg := Handler.WarningMsg
    infoMsg := Handler.InfoMsg
    debugMsg := Handler.DebugMsg
    failedAssert := Handler.FailedAssert }

/-- `SimpleLogManager_Alloc`.  The handle it returns is the published
singleton; when it returns `NULL` (no memory, no mutex) the world is as
before. -/
def SimpleLogManager_Alloc (env : Env) (w : World) : Option World :=
  match w.SimpleLogManagerSingleton with
  | some _ => none
  | none =>
    if env.callocOk = false then some w
    else if env.mutexCreateOk = false then some w
    else
      let filePath := env.currentDir
      if filePath.length + 8 < bufferSize then
        let filePath := filePath ++ "log.log"
        let (logFile, w1) := Os_FileOpen env filePath w
        let logManager : SimpleLogManager :=
          { logFile := logFile
            recordTimestamp := false
            fileLineQuiet := true
            infoQuiet := false
            warningQuiet := false
            errorQuiet := false
            failedAssertQuiet := false
            debugMsgQuiet := false
            oldLogger := w1.AL2O3_Logger
            logger := ownLogger
            lastMessage := ""
            filePath := filePath }
        some { w1 with AL2O3_Logger := logManager.logger
                       SimpleLogManagerSingleton := some logManager }
      else none

/-- The five levels of the dispatch table. -/
inductive Level where
  | info
  | warning
  | error
  | debug
  | failedAssert
deriving DecidableEq, Repr

/-- The static function serving a level. -/
def Level.entry : Level → Env → Option String → Int → String → String → World → Option World
  | Level.info => SimpleLogManager_InfoMsg
  | Level.warning => SimpleLogManager_WarningMsg
  | Level.error => SimpleLogManager_ErrorMsg
  | Level.debug => SimpleLogManager_DebugMsg
  | Level.failedAssert => SimpleLogManager_FailedAssert

/-- The quiet flag a level is expected to obey. -/
def Level.quiet : Level → SimpleLogManager → Bool
  | Level.info, lm => SimpleLogManager_IsInfoQuiet lm
  | Level.warning, lm => SimpleLogManager_IsWarningQuiet lm
  | Level.error, lm => SimpleLogManager_IsErrorQuiet lm
  | Level.debug, lm => SimpleLogManager_IsDebugMsgQuiet lm
  | Level.failedAssert, lm => SimpleLogManager_IsFailedAssertQuiet lm

/-- The tag a level is expected to print. -/
def Level.tag : Level → String
  | Level.info => "INFO "
  | Level.warning => "WARN "
  | Level.error => "ERROR"
  | Level.debug => "DEBUG"
  | Level.failedAssert => "ASSERT"

/-- Texts received by the debug-output channel, oldest first. -/
def debugChannel (trace : List Event) : List String :=
  trace.filterMap fun e =>
    match e with
    | Event.outputDebug text => some text
    | _ => none

/-- Actions on files, oldest first. -/
def fileActions (trace : List Event) : List Event :=
  trace.filter fun e =>
    match e with
    | Event.fileOpen _ _ => true
    | Event.fileWrite _ _ => true
    | Event.fileFlush _ => true
    | Event.fileClose _ => true
    | _ => false

/-- Content of `lastMessage` of the live logger. -/
def World.lastMessage (w : World) : Option String :=
  w.SimpleLogManagerSingleton.map fun lm => lm.lastMessage

/-- The events `SimpleLogManager_Msg` performs for a text `buffer` that fits. -/
def msgEvents (logFile : Os_FileHandle) (buffer : String) : List Event :=
  [Event.mutexAcquire, Event.storeLastMessage buffer, Event.outputDebug buffer] ++
    (if Os_FileIsOpen logFile then
      [Event.fileWrite logFile buffer, Event.fileFlush logFile] else []) ++
    [Event.mutexRelease]

/-- The events `SimpleLogManager_Msg` performs for any text `buffer`; `overrun`
tells whether a local array was overrun while formatting. -/
def msgEventsAny (logFile : Os_FileHandle) (buffer : String) (overrun : Bool) : List Event :=
  (if overrun then [Event.overrun "buffer"] else []) ++
    [Event.mutexAcquire, Event.storeLastMessage buffer] ++
    (if fits buffer then [] else [Event.overrun "lastMessage"]) ++
    [Event.outputDebug buffer] ++
    (if Os_FileIsOpen logFile then
      [Event.fileWrite logFile buffer, Event.fileFlush logFile] else []) ++
    [Event.mutexRelease]

/-- Arrays overrun so far, oldest first. -/
def overruns (trace : List Event) : List String :=
  trace.filterMap fun e =>
    match e with
    | Event.overrun array => some array
    | _ => none

/-- An upper bound of the length of the line a level call formats, whatever
the flags: timestamp brackets (3), the longest tag (6), the punctuation of the
long format (10) and the texts themselves. -/
def lineBound (env : Env) (file : Option String) (line : Int) (function msg : String) : Nat :=
  env.ctimeResult.length + (file.getD "").length + (decimal line).length + function.length +
    msg.length + 19

/-- The line of `logmanager.c` that reports the result of an open. -/
def reportLine (env : Env) : Int := if env.openResult = 0 then 162 else 160

/-- The text `SimpleLogManager_UseFileForLog` reports after the open. -/
def reportText (env : Env) (fileName : String) : String :=
  (if env.openResult = 0 then "Failed to create log file " else "Opened log file ") ++ fileName

/-- A call of the public interface between creation and destruction.  The
host reaches the five level functions through the slots of the dispatch
table only (they are `static`). -/
inductive Op where
  | UseFileForLog (fileName : String)
  | CloseLogFile
  | SetRecordTimeStamp (enable : Bool)
  | SetFileLineQuiet (enable : Bool)
  | SetInfoQuiet (enable : Bool)
  | SetWarningQuiet (enable : Bool)
  | SetErrorQuiet (enable : Bool)
  | SetFailedAssertQuiet (enable : Bool)
  | SetDebugMsgQuiet (enable : Bool)
  | errorMsg (file : Option String) (line : Int) (function msg : String)
  | warningMsg (file : Option String) (line : Int) (function msg : String)
  | infoMsg (file : Option String) (line : Int) (function msg : String)
  | debugMsg (file : Option String) (line : Int) (function msg : String)
  | failedAssert (file : Option String) (line : Int) (function msg : String)
deriving DecidableEq, Repr

/-- Effect of one call, in the surroundings `env`. -/
def Op.apply (env : Env) (op : Op) (w : World) : Option World :=
  match op with
  | Op.UseFileForLog fileName => SimpleLogManager_UseFileForLog env fileName w
  | Op.CloseLogFile => SimpleLogManager_CloseLogFile w
  | Op.SetRecordTimeStamp enable => SimpleLogManager_SetRecordTimeStamp enable w
  | Op.SetFileLineQuiet enable => SimpleLogManager_SetFileLineQuiet enable w
  | Op.SetInfoQuiet enable => SimpleLogManager_SetInfoQuiet enable w
  | Op.SetWarningQuiet enable => SimpleLogManager_SetWarningQuiet enable w
  | Op.SetErrorQuiet enable => SimpleLogManager_SetErrorQuiet enable w
  | Op.SetFailedAssertQuiet enable => SimpleLogManager_SetFailedAssertQuiet enable w
  | Op.SetDebugMsgQuiet enable => SimpleLogManager_SetDebugMsgQuiet enable w
  | Op.errorMsg file line function msg =>
      w.AL2O3_Logger.errorMsg.call env file line function msg w
  | Op.warningMsg file line function msg =>
      w.AL2O3_Logger.warningMsg.call env file line function msg w
  | Op.infoMsg file line function msg =>
      w.AL2O3_Logger.infoMsg.call env file line function msg w
  | Op.debugMsg file line function msg =>
      w.AL2O3_Logger.debugMsg.call env file line function msg w
  | Op.failedAssert file line function msg =>
      w.AL2O3_Logger.failedAssert.call env file line function msg w

/-- The lines a call can format fit the 2048-byte arrays they pass through
(and with them the path a file target stores). -/
def Op.withinCapacity (env : Env) (op : Op) : Bool :=
  match op with
  | Op.UseFileForLog fileName =>
      decide (lineBound env (some env.sourceFile) (reportLine env)
        "SimpleLogManager_UseFileForLog" (reportText env fileName) < bufferSize)
  | Op.errorMsg file line function msg => decide (lineBound env file line function msg < bufferSize)
  | Op.warningMsg file line function msg =>
      decide (lineBound env file line function msg < bufferSize)
  | Op.infoMsg file line function msg => decide (lineBound env file line function msg < bufferSize)
  | Op.debugMsg file line function msg => decide (lineBound env file line function msg < bufferSize)
  | Op.failedAssert file line function msg =>
      decide (lineBound env file line function msg < bufferSize)
  | _ => true

/-- The logger is live in `w` and its path is non-empty exactly when its
handle denotes an open file. -/
@[reducible]
def PathMatchesFile (w : World) : Prop :=
  ∃ lm, w.SimpleLogManagerSingleton = some lm ∧
    (lm.filePath ≠ "" ↔ Os_FileIsOpen lm.logFile = true)

/-! ## Concrete inputs -/

/-- A table of five functions of the host. -/
def hostLogger : AL2O3_Logger_t :=
  { errorMsg := Handler.foreign 1
    warningMsg := Handler.foreign 2
    infoMsg := Handler.foreign 3
    debugMsg := Handler.foreign 4
    failedAssert := Handler.foreign 5 }

/-- A process in which no logger is live. -/
def bootWorld : World :=
  { SimpleLogManagerSingleton := none
    AL2O3_Logger := hostLogger
    openFiles := []
    trace := [] }

/-- Surroundings in which every file open succeeds with handle 7. -/
def goodEnv : Env :=
  { ctimeResult := "Thu Jan  1 00:00:00 1970\n"
    openResult := 7
    currentDir := "/work/"
    callocOk := true
    mutexCreateOk := true
    sourceFile := "logmanager.c" }

/-- Surroundings in which every file open fails. -/
def readOnlyEnv : Env := { goodEnv with openResult := 0, currentDir := "/ro/" }

/-- A logger as `SimpleLogManager_Alloc` leaves it when the default file got
handle 7 from the OS. -/
def freshLogger : SimpleLogManager :=
  { logFile := 7
    recordTimestamp := false
    fileLineQuiet := true
    infoQuiet := false
    warningQuiet := false
    errorQuiet := false
    failedAssertQuiet := false
    debugMsgQuiet := false
    oldLogger := hostLogger
    logger := ownLogger
    lastMessage := ""
    filePath := "/work/log.log" }

/-- The process after `SimpleLogManager_Alloc` in `goodEnv`. -/
def liveWorld : World :=
  { SimpleLogManagerSingleton := some freshLogger
    AL2O3_Logger := ownLogger
    openFiles := [7]
    trace := [Event.fileOpen "/work/log.log" 7] }

/-- The live process with the error level silenced. -/
def mutedWorld : World :=
  liveWorld.setLogger { freshLogger with errorQuiet := true, lastMessage := "earlier\n" }

/-- A live logger without a file. -/
def fileLessWorld : World :=
  { SimpleLogManagerSingleton := some { freshLogger with logFile := 0, filePath := "" }
    AL2O3_Logger := ownLogger
    openFiles := []
    trace := [] }

/-- A message that does not fit the buffer. -/
def longMessage : String := String.mk (List.replicate 2048 'a')

/-- A path of 2024 characters: it fits `filePath`; the line that confirms the
open has 2048 characters and does not fit `lastMessage`. -/
def longPath : String := String.mk (List.replicate 2024 'p')

theorem sprintf_level_msg (level msg : String) :
    sprintf "%s: %s\n" [FormatArg.str level, FormatArg.str msg] = level ++ ": " ++ msg ++ "\n" := by
  apply String.ext
  simp [sprintf, sprintfChars]

theorem sprintf_level_file_msg (level f function msg : String) (line : Int) :
    sprintf "%s: %s(%i) - %s: %s\n"
        [FormatArg.str level, FormatArg.str f, FormatArg.int line, FormatArg.str function,
         FormatArg.str msg]
      = level ++ ": " ++ f ++ "(" ++ decimal line ++ ") - " ++ function ++ ": " ++ msg ++ "\n" := by
  apply String.ext
  simp [sprintf, sprintfChars]

theorem sprintf_timestamp (timeBuf buffer : String) :
    sprintf "[%s] %s" [FormatArg.str timeBuf, FormatArg.str buffer]
      = "[" ++ timeBuf ++ "] " ++ buffer := by
  apply String.ext
  simp [sprintf, sprintfChars]

theorem sprintf_opened (fileName : String) :
    sprintf "Opened log file %s" [FormatArg.str fileName] = "Opened log file " ++ fileName := by
  apply String.ext
  simp [sprintf, sprintfChars]

theorem sprintf_failed (fileName : String) :
    sprintf "Failed to create log file %s" [FormatArg.str fileName]
      = "Failed to create log file " ++ fileName := by
  apply String.ext
  simp [sprintf, sprintfChars]

theorem fits_iff (text : String) : fits text = true ↔ text.length < bufferSize := by
  simp [fits]

theorem Level.tag_length (L : Level) : L.tag.length ≤ 6 := by
  cases L <;> decide

theorem GetTimeStamp_isSome (env : Env) (h : env.ctimeResult.length < 256) :
    ∃ ts, GetTimeStamp env = some ts := by
  simp [GetTimeStamp, h]

theorem GetTimeStamp_length (env : Env) (ts : String) (h : GetTimeStamp env = some ts) :
    ts.length = env.ctimeResult.length := by
  unfold GetTimeStamp at h
  by_cases hlen : env.ctimeResult.length < 256
  · simp only [hlen, if_true, Option.some.injEq] at h
    subst h
    exact List.length_map _ _
  · simp [hlen] at h

theorem overrun_flag_iff (ts buffer : String) :
    (!fits buffer || !fits ("[" ++ ts ++ "] " ++ buffer)) = false
      ↔ fits ("[" ++ ts ++ "] " ++ buffer) = true := by
  constructor
  · intro h
    simp only [Bool.or_eq_false_iff, Bool.not_eq_false'] at h
    exact h.2
  · intro h
    have hb : fits buffer = true := by
      rw [fits_iff] at h ⊢
      simp only [String.length_append] at h
      omega
    simp [h, hb]

theorem Msg_buffer_isSome (env : Env) (lm : SimpleLogManager) (level : String)
    (file : Option String) (line : Int) (function msg : String)
    (h : lm.recordTimestamp = true → env.ctimeResult.length < 256) :
    ∃ r, SimpleLogManager_Msg_buffer env lm level file line function msg = some r := by
  unfold SimpleLogManager_Msg_buffer
  cases ht : lm.recordTimestamp
  · simp
  · obtain ⟨ts, hts⟩ := GetTimeStamp_isSome env (h ht)
    simp [hts]

/-- The flag of `SimpleLogManager_Msg_buffer` is off exactly when the final
text fits: the timestamped text is longer than the one it wraps. -/
theorem Msg_buffer_overrun_iff (env : Env) (lm : SimpleLogManager) (level : String)
    (file : Option String) (line : Int) (function msg s : String) (overrun : Bool)
    (hb : SimpleLogManager_Msg_buffer env lm level file line function msg = some (s, overrun)) :
    overrun = false ↔ fits s = true := by
  unfold SimpleLogManager_Msg_buffer at hb
  cases ht : lm.recordTimestamp
  · simp only [ht, Bool.false_eq_true, if_false, Option.some.injEq, Prod.mk.injEq] at hb
    obtain ⟨h1, h2⟩ := hb
    subst h1
    rw [← h2]
    simp
  · cases hg : GetTimeStamp env with
    | none => simp [ht, hg] at hb
    | some ts =>
      simp only [ht, hg, if_true, Option.some.injEq, Prod.mk.injEq, sprintf_timestamp] at hb
      obtain ⟨h1, h2⟩ := hb
      subst h1
      rw [← h2]
      exact overrun_flag_iff ts _

/-- The text put into the buffer is never longer than `lineBound` says. -/
theorem Msg_buffer_length_le (env : Env) (lm : SimpleLogManager) (level : String)
    (file : Option String) (line : Int) (function msg s : String) (overrun : Bool)
    (hlevel : level.length ≤ 6)
    (hb : SimpleLogManager_Msg_buffer env lm level file line function msg = some (s, overrun)) :
    s.length ≤ lineBound env file line function msg := by
  unfold SimpleLogManager_Msg_buffer at hb
  simp only [sprintf_level_msg, sprintf_level_file_msg, sprintf_timestamp] at hb
  have h1 : ": ".length = 2 := by decide
  have h2 : "\n".length = 1 := by decide
  have h3 : "(".length = 1 := by decide
  have h4 : ") - ".length = 4 := by decide
  have h5 : "[".length = 1 := by decide
  have h6 : "] ".length = 2 := by decide
  have h7 : "".length = 0 := by decide
  cases ht : lm.recordTimestamp <;> cases hq : lm.fileLineQuiet <;> cases file <;>
    simp only [ht, hq] at hb
  all_goals first
    | (simp at hb
       obtain ⟨hb, _⟩ := hb
       subst hb
       simp only [lineBound, String.length_append, Option.getD]
       omega)
    | (cases hg : GetTimeStamp env <;> simp [hg] at hb
       obtain ⟨hb, _⟩ := hb
       subst hb
       have := GetTimeStamp_length env _ hg
       simp only [lineBound, String.length_append, Option.getD]
       omega)

/-- Within `lineBound` no array is overrun. -/
theorem Msg_buffer_within (env : Env) (lm : SimpleLogManager) (level : String)
    (file : Option String) (line : Int) (function msg : String) (r : String × Bool)
    (hlevel : level.length ≤ 6)
    (hcap : lineBound env file line function msg < bufferSize)
    (hb : SimpleLogManager_Msg_buffer env lm level file line function msg = some r) :
    r.2 = false := by
  obtain ⟨s, overrun⟩ := r
  have hle := Msg_buffer_length_le env lm level file line function msg s overrun hlevel hb
  exact (Msg_buffer_overrun_iff env lm level file line function msg s overrun hb).mpr
    ((fits_iff s).mpr (by omega))

theorem strcpy_lastMessage_of_fits (lm : SimpleLogManager) (s : String) (h : fits s = true) :
    lm.strcpy_lastMessage s = { lm with lastMessage := s } := by
  simp [SimpleLogManager.strcpy_lastMessage, h]

theorem msgEventsAny_of_fits (logFile : Os_FileHandle) (s : String) (h : fits s = true) :
    msgEventsAny logFile s false = msgEvents logFile s := by
  simp [msgEventsAny, msgEvents, h]

/-- Closed form of a call of `SimpleLogManager_Msg`. -/
theorem Msg_eq_any (env : Env) (level : String) (file : Option String) (line : Int)
    (function msg : String) (w : World) (lm : SimpleLogManager) (s : String) (overrun : Bool)
    (hs : w.SimpleLogManagerSingleton = some lm)
    (hb : SimpleLogManager_Msg_buffer env lm level file line function msg = some (s, overrun)) :
    SimpleLogManager_Msg env level file line function msg w
      = some { SimpleLogManagerSingleton := some (lm.strcpy_lastMessage s)
               AL2O3_Logger := w.AL2O3_Logger
               openFiles := w.openFiles
               trace := w.trace ++ msgEventsAny lm.logFile s overrun } := by
  unfold SimpleLogManager_Msg
  rw [hs]
  simp only [hb]
  cases ho : Os_FileIsOpen lm.logFile <;> cases overrun <;> cases hf : fits s <;>
    simp [ho, hf, msgEventsAny, Os_MutexAcquire, Os_MutexRelease, AL2O3_OutputDebug,
      Os_FileWrite, Os_FileFlush, World.emit, World.setLogger, World.noteOverrun]

/-- Closed form of a call of `SimpleLogManager_Msg` whose text `s` fits. -/
theorem Msg_eq (env : Env) (level : String) (file : Option String) (line : Int)
    (function msg : String) (w : World) (lm : SimpleLogManager) (s : String)
    (hs : w.SimpleLogManagerSingleton = some lm)
    (hb : SimpleLogManager_Msg_buffer env lm level file line function msg = some (s, false)) :
    SimpleLogManager_Msg env level file line function msg w
      = some { SimpleLogManagerSingleton := some { lm with lastMessage := s }
               AL2O3_Logger := w.AL2O3_Logger
               openFiles := w.openFiles
               trace := w.trace ++ msgEvents lm.logFile s } := by
  have hf : fits s = true :=
    (Msg_buffer_overrun_iff env lm level file line function msg s false hb).mp rfl
  rw [Msg_eq_any env level file line function msg w lm s false hs hb,
    strcpy_lastMessage_of_fits lm s hf, msgEventsAny_of_fits lm.logFile s hf]

/-- Closed form of a level call that passes its quiet filter. -/
theorem entry_eq_any (L : Level) (env : Env) (file : Option String) (line : Int)
    (function msg : String) (w : World) (lm : SimpleLogManager) (s : String) (overrun : Bool)
    (hs : w.SimpleLogManagerSingleton = some lm) (hq : L.quiet lm = false)
    (hb : SimpleLogManager_Msg_buffer env lm L.tag file line function msg = some (s, overrun)) :
    L.entry env file line function msg w
      = some { SimpleLogManagerSingleton := some (lm.strcpy_lastMessage s)
               AL2O3_Logger := w.AL2O3_Logger
               openFiles := w.openFiles
               trace := w.trace ++ msgEventsAny lm.logFile s overrun } := by
  cases L <;>
    simp only [Level.entry, Level.tag, Level.quiet, SimpleLogManager_InfoMsg,
      SimpleLogManager_WarningMsg, SimpleLogManager_ErrorMsg, SimpleLogManager_DebugMsg,
      SimpleLogManager_FailedAssert] at hq hb ⊢ <;>
    rw [hs] <;> simp only [hq] <;>
    exact Msg_eq_any env _ file line function msg w lm s overrun hs hb

/-- Closed form of a level call that passes its quiet filter with a text that
fits. -/
theorem entry_eq (L : Level) (env : Env) (file : Option String) (line : Int)
    (function msg : String) (w : World) (lm : SimpleLogManager) (s : String)
    (hs : w.SimpleLogManagerSingleton = some lm) (hq : L.quiet lm = false)
    (hb : SimpleLogManager_Msg_buffer env lm L.tag file line function msg = some (s, false)) :
    L.entry env file line function msg w
      = some { SimpleLogManagerSingleton := some { lm with lastMessage := s }
               AL2O3_Logger := w.AL2O3_Logger
               openFiles := w.openFiles
               trace := w.trace ++ msgEvents lm.logFile s } := by
  have hf : fits s = true :=
    (Msg_buffer_overrun_iff env lm L.tag file line function msg s false hb).mp rfl
  rw [entry_eq_any L env file line function msg w lm s false hs hq hb,
    strcpy_lastMessage_of_fits lm s hf, msgEventsAny_of_fits lm.logFile s hf]

theorem entry_quiet (L : Level) (env : Env) (file : Option String) (line : Int)
    (function msg : String) (w : World) (lm : SimpleLogManager)
    (hs : w.SimpleLogManagerSingleton = some lm) (hq : L.quiet lm = true) :
    L.entry env file line function msg w = some w := by
  cases L <;>
    simp only [Level.entry, Level.quiet, SimpleLogManager_InfoMsg,
      SimpleLogManager_WarningMsg, SimpleLogManager_ErrorMsg, SimpleLogManager_DebugMsg,
      SimpleLogManager_FailedAssert] at hq ⊢ <;>
    rw [hs] <;> simp [hq]

theorem debugChannel_append (a b : List Event) :
    debugChannel (a ++ b) = debugChannel a ++ debugChannel b := by
  simp [debugChannel]

theorem overruns_append (a b : List Event) :
    overruns (a ++ b) = overruns a ++ overruns b := by
  simp [overruns]

theorem debugChannel_msgEvents (logFile : Os_FileHandle) (s : String) :
    debugChannel (msgEvents logFile s) = [s] := by
  cases h : Os_FileIsOpen logFile <;> simp [msgEvents, debugChannel, h]

theorem overruns_msgEvents (logFile : Os_FileHandle) (s : String) :
    overruns (msgEvents logFile s) = [] := by
  cases h : Os_FileIsOpen logFile <;> simp [msgEvents, overruns, h]

/-! ## The quiet filter -/

/-- C1: when the quiet flag of a level is set, the entry point of that level
returns with the whole process state as it was: nothing reaches the debug
channel, no file is touched, and `lastMessage` and every other field keep
their values. -/
theorem quiet_level_writes_nothing (L : Level) (env : Env) (file : Option String) (line : Int)
    (function msg : String) (w : World) (lm : SimpleLogManager)
    (hs : w.SimpleLogManagerSingleton = some lm) (hq : L.quiet lm = true) :
    ∃ w', L.entry env file line function msg w = some w' ∧
      debugChannel w'.trace = debugChannel w.trace ∧
      fileActions w'.trace = fileActions w.trace ∧
      w'.lastMessage = w.lastMessage ∧
      w' = w :=
  ⟨w, entry_quiet L env file line function msg w lm hs hq, rfl, rfl, rfl, rfl⟩

theorem quiet_level_writes_nothing_witness :
    ∃ w', SimpleLogManager_ErrorMsg goodEnv none 0 "main" "x" mutedWorld = some w' ∧
      debugChannel w'.trace = [] ∧ w'.lastMessage = some "earlier\n" := by
  obtain ⟨w', h, _, _, _, hw⟩ :=
    quiet_level_writes_nothing Level.error goodEnv none 0 "main" "x" mutedWorld _ rfl rfl
  subst hw
  exact ⟨_, h, by decide, by decide⟩

/-! ## The primary format -/

/-- A call through any slot with a line within `lineBound` leaves the logger
record as it was, up to `lastMessage`, overruns nothing and leaves the
dispatch table and the open files alone. -/
theorem Handler_call_frame (h : Handler) (env : Env) (file : Option String) (line : Int)
    (function msg : String) (w : World) (lm : SimpleLogManager)
    (hs : w.SimpleLogManagerSingleton = some lm)
    (hclock : lm.recordTimestamp = true → env.ctimeResult.length < 256)
    (hcap : lineBound env file line function msg < bufferSize) :
    ∃ w' t, h.call env file line function msg w = some w' ∧
      w'.SimpleLogManagerSingleton = some { lm with lastMessage := t } ∧
      w'.AL2O3_Logger = w.AL2O3_Logger ∧ w'.openFiles = w.openFiles ∧
      overruns w'.trace = overruns w.trace := by
  have key : ∀ L : Level, ∃ w' t, L.entry env file line function msg w = some w' ∧
      w'.SimpleLogManagerSingleton = some { lm with lastMessage := t } ∧
      w'.AL2O3_Logger = w.AL2O3_Logger ∧ w'.openFiles = w.openFiles ∧
      overruns w'.trace = overruns w.trace := by
    intro L
    cases hq : L.quiet lm
    · obtain ⟨⟨s, o⟩, hb⟩ := Msg_buffer_isSome env lm L.tag file line function msg hclock
      have ho : o = false :=
        Msg_buffer_within env lm L.tag file line function msg (s, o) L.tag_length hcap hb
      subst ho
      exact ⟨_, s, entry_eq L env file line function msg w lm s hs hq hb, rfl, rfl, rfl,
        by simp [overruns_append, overruns_msgEvents]⟩
    · exact ⟨w, lm.lastMessage, entry_quiet L env file line function msg w lm hs hq,
        by rw [hs], rfl, rfl, rfl⟩
  cases h with
  | ErrorMsg => exact key Level.error
  | WarningMsg => exact key Level.warning
  | InfoMsg => exact key Level.info
  | DebugMsg => exact key Level.debug
  | FailedAssert => exact key Level.failedAssert
  | foreign addr =>
    exact ⟨_, lm.lastMessage, rfl, by simp [World.emit, hs], rfl, rfl,
      by simp [World.emit, overruns]⟩

/-- `SimpleLogManager_UseFileForLog` with the current path returns at once. -/
theorem UseFileForLog_same_path (env : Env) (w : World) (lm : SimpleLogManager)
    (hs : w.SimpleLogManagerSingleton = some lm) :
    SimpleLogManager_UseFileForLog env lm.filePath w = some w := by
  simp [SimpleLogManager_UseFileForLog, hs]

theorem lineBound_msg_le (env : Env) (file : Option String) (line : Int)
    (function msg : String) : msg.length ≤ lineBound env file line function msg := by
  simp only [lineBound]
  omega

/-- `SimpleLogManager_UseFileForLog` with another path, when the report line
is within `lineBound`: the old file, if any, is closed, the answer of the OS
becomes the handle, and the path is stored when the open succeeded; when it
failed the path is the one the close left.  No array is overrun. -/
theorem UseFileForLog_other_path (env : Env) (fileName : String) (w : World)
    (lm : SimpleLogManager) (hs : w.SimpleLogManagerSingleton = some lm)
    (hne : fileName ≠ lm.filePath)
    (hclock : lm.recordTimestamp = true → env.ctimeResult.length < 256)
    (hcap : lineBound env (some env.sourceFile) (reportLine env)
      "SimpleLogManager_UseFileForLog" (reportText env fileName) < bufferSize) :
    ∃ w' t, SimpleLogManager_UseFileForLog env fileName w = some w' ∧
      w'.SimpleLogManagerSingleton = some
        { lm with
          logFile := env.openResult
          filePath :=
            if env.openResult = 0 then (if lm.logFile = 0 then lm.filePath else "")
            else fileName
          lastMessage := t } ∧
      w'.AL2O3_Logger = w.AL2O3_Logger ∧
      w'.openFiles =
        (if env.openResult = 0 then [] else [env.openResult]) ++
          (if lm.logFile = 0 then w.openFiles else w.openFiles.erase lm.logFile) ∧
      overruns w'.trace = overruns w.trace := by
  have hfn : fits fileName = true := by
    rw [fits_iff]
    have h1 := lineBound_msg_le env (some env.sourceFile) (reportLine env)
      "SimpleLogManager_UseFileForLog" (reportText env fileName)
    have h2 : fileName.length ≤ (reportText env fileName).length := by
      simp only [reportText, String.length_append]
      omega
    omega
  unfold SimpleLogManager_UseFileForLog
  rw [hs]
  simp only [hne, if_false]
  by_cases hopen : lm.logFile = 0
  · by_cases hres : env.openResult = 0
    · have hcap' : lineBound env (some env.sourceFile) 162 "SimpleLogManager_UseFileForLog"
          (sprintf "Failed to create log file %s" [FormatArg.str fileName]) < bufferSize := by
        simpa [reportLine, reportText, hres, sprintf_failed] using hcap
      obtain ⟨w', t, hc, h1, h2, h3, h4⟩ :=
        Handler_call_frame w.AL2O3_Logger.errorMsg env (some env.sourceFile) 162
          "SimpleLogManager_UseFileForLog"
          (sprintf "Failed to create log file %s" [FormatArg.str fileName])
          ((Os_FileOpen env fileName w).2.setLogger { lm with logFile := env.openResult })
          { lm with logFile := env.openResult } rfl hclock hcap'
      refine ⟨w', t, ?_, ?_, ?_, ?_, ?_⟩
      · simpa [Os_FileIsOpen, hopen, hs, hres, LOGERRORF, Os_FileOpen, World.setLogger] using hc
      · simpa [hopen, hres] using h1
      · simpa [Os_FileOpen, World.setLogger] using h2
      · simpa [Os_FileOpen, World.setLogger, hopen, hres] using h3
      · simpa [Os_FileOpen, World.setLogger, overruns] using h4
    · have hcap' : lineBound env (some env.sourceFile) 160 "SimpleLogManager_UseFileForLog"
          (sprintf "Opened log file %s" [FormatArg.str fileName]) < bufferSize := by
        simpa [reportLine, reportText, hres, sprintf_opened] using hcap
      obtain ⟨w', t, hc, h1, h2, h3, h4⟩ :=
        Handler_call_frame w.AL2O3_Logger.infoMsg env (some env.sourceFile) 160
          "SimpleLogManager_UseFileForLog"
          (sprintf "Opened log file %s" [FormatArg.str fileName])
          ((Os_FileOpen env fileName w).2.setLogger
            (SimpleLogManager.strcpy_filePath fileName { lm with logFile := env.openResult }))
          (SimpleLogManager.strcpy_filePath fileName { lm with logFile := env.openResult })
          rfl hclock hcap'
      refine ⟨w', t, ?_, ?_, ?_, ?_, ?_⟩
      · simpa [Os_FileIsOpen, hopen, hs, hres, LOGINFOF, Os_FileOpen, World.setLogger,
          World.noteOverrun, hfn] using hc
      · simpa [hopen, hres, SimpleLogManager.strcpy_filePath] using h1
      · simpa [Os_FileOpen, World.setLogger] using h2
      · simpa [Os_FileOpen, World.setLogger, hopen, hres] using h3
      · simpa [Os_FileOpen, World.setLogger, overruns] using h4
  · by_cases hres : env.openResult = 0
    · have hcap' : lineBound env (some env.sourceFile) 162 "SimpleLogManager_UseFileForLog"
          (sprintf "Failed to create log file %s" [FormatArg.str fileName]) < bufferSize := by
        simpa [reportLine, reportText, hres, sprintf_failed] using hcap
      obtain ⟨w', t, hc, h1, h2, h3, h4⟩ :=
        Handler_call_frame w.AL2O3_Logger.errorMsg env (some env.sourceFile) 162
          "SimpleLogManager_UseFileForLog"
          (sprintf "Failed to create log file %s" [FormatArg.str fileName])
          ((Os_FileOpen env fileName
              ((Os_FileClose lm.logFile w).setLogger
                { SimpleLogManager.strcpy_filePath "" lm with logFile := 0 })).2.setLogger
            { SimpleLogManager.strcpy_filePath "" lm with logFile := env.openResult })
          { SimpleLogManager.strcpy_filePath "" lm with logFile := env.openResult } rfl hclock
          hcap'
      refine ⟨w', t, ?_, ?_, ?_, ?_, ?_⟩
      · simpa [Os_FileIsOpen, hopen, hs, hres, LOGERRORF, Os_FileOpen, World.setLogger,
          SimpleLogManager_CloseLogFile, Os_FileClose] using hc
      · simpa [hopen, hres, SimpleLogManager.strcpy_filePath] using h1
      · simpa [Os_FileOpen, World.setLogger, Os_FileClose] using h2
      · simpa [Os_FileOpen, World.setLogger, Os_FileClose, hopen, hres] using h3
      · simpa [Os_FileOpen, World.setLogger, Os_FileClose, overruns] using h4
    · have hcap' : lineBound env (some env.sourceFile) 160 "SimpleLogManager_UseFileForLog"
          (sprintf "Opened log file %s" [FormatArg.str fileName]) < bufferSize := by
        simpa [reportLine, reportText, hres, sprintf_opened] using hcap
      obtain ⟨w', t, hc, h1, h2, h3, h4⟩ :=
        Handler_call_frame w.AL2O3_Logger.infoMsg env (some env.sourceFile) 160
          "SimpleLogManager_UseFileForLog"
          (sprintf "Opened log file %s" [FormatArg.str fileName])
          ((Os_FileOpen env fileName
              ((Os_FileClose lm.logFile w).setLogger
                { SimpleLogManager.strcpy_filePath "" lm with logFile := 0 })).2.setLogger
            (SimpleLogManager.strcpy_filePath fileName
              { SimpleLogManager.strcpy_filePath "" lm with logFile := env.openResult }))
          (SimpleLogManager.strcpy_filePath fileName
            { SimpleLogManager.strcpy_filePath "" lm with logFile := env.openResult }) rfl
          hclock hcap'
      refine ⟨w', t, ?_, ?_, ?_, ?_, ?_⟩
      · simpa [Os_FileIsOpen, hopen, hs, hres, LOGINFOF, Os_FileOpen, World.setLogger,
          SimpleLogManager_CloseLogFile, Os_FileClose, World.noteOverrun, hfn] using hc
      · simpa [hopen, hres, SimpleLogManager.strcpy_filePath] using h1
      · simpa [Os_FileOpen, World.setLogger, Os_FileClose] using h2
      · simpa [Os_FileOpen, World.setLogger, Os_FileClose, hopen, hres] using h3
      · simpa [Os_FileOpen, World.setLogger, Os_FileClose, overruns] using h4

theorem longPath_length : longPath.length = 2024 :=
  List.length_replicate 2024 'p'

theorem longPath_fits : fits longPath = true := by
  unfold fits
  rw [longPath_length]
  decide

theorem longPath_ne : ¬ longPath = "" := by
  intro h
  have := congrArg String.length h
  rw [longPath_length] at this
  exact absurd this (by decide)

theorem longReport_not_fits :
    fits ("INFO : " ++ ("Opened log file " ++ longPath) ++ "\n") = false := by
  have h1 : "INFO : ".length = 7 := by decide
  have h2 : "Opened log file ".length = 16 := by decide
  have h3 : "\n".length = 1 := by decide
  unfold fits
  rw [String.length_append, String.length_append, String.length_append, longPath_length, h1,
    h2, h3]
  decide

/-- Beyond the bound of the amended C7 the first call can lose the path it
stored: the file opens, the path of 2024 characters is stored, and the line
that confirms it (2048 characters) runs over `lastMessage`, so its terminator
lands on the first byte of `filePath`.  The guard of the next call then
compares with the empty path. -/
theorem UseFileForLog_long_path_loses_path :
    ∃ w1 lm1, SimpleLogManager_UseFileForLog goodEnv longPath fileLessWorld = some w1 ∧
      w1.SimpleLogManagerSingleton = some lm1 ∧ Os_FileIsOpen lm1.logFile = true ∧
      lm1.filePath = "" ∧ overruns w1.trace = ["buffer", "lastMessage"] := by
  simp [SimpleLogManager_UseFileForLog, fileLessWorld, longPath_ne, Os_FileIsOpen, freshLogger,
    goodEnv, Os_FileOpen, LOGINFOF, ownLogger, Handler.call, SimpleLogManager_InfoMsg,
    SimpleLogManager_IsInfoQuiet, World.noteOverrun, longPath_fits, World.setLogger,
    sprintf_opened, SimpleLogManager_Msg, SimpleLogManager_Msg_buffer, sprintf_level_msg,
    SimpleLogManager.strcpy_filePath, longReport_not_fits, SimpleLogManager.strcpy_lastMessage,
    Os_MutexAcquire, Os_MutexRelease, Os_FileFlush, Os_FileWrite, AL2O3_OutputDebug, World.emit,
    overruns]
  refine congrArg String.mk (List.drop_eq_nil_of_le ?_)
  have hl : longPath.data.length = 2024 := longPath_length
  simp [hl, bufferSize]

/-! ## What the file target does guarantee -/

theorem Msg_buffer_congr (env : Env) (lm1 lm2 : SimpleLogManager) (level : String)
    (file : Option String) (line : Int) (function msg : String)
    (h1 : lm1.fileLineQuiet = lm2.fileLineQuiet)
    (h2 : lm1.recordTimestamp = lm2.recordTimestamp) :
    SimpleLogManager_Msg_buffer env lm1 level file line function msg
      = SimpleLogManager_Msg_buffer env lm2 level file line function msg := by
  simp only [SimpleLogManager_Msg_buffer, h1, h2]

/-- From a state in which a closed file goes with an empty path, and with the
error slot served by this logger, a failing `SimpleLogManager_UseFileForLog`
with another path, whose report `s` fits the arrays, ends without file and
with an empty path, and the debug channel receives the error text once, or
nothing when the error level is quiet. -/
theorem UseFileForLog_failed_open_consistent (env : Env) (fileName : String) (w : World)
    (lm : SimpleLogManager) (s : String)
    (hs : w.SimpleLogManagerSingleton = some lm)
    (htab : w.AL2O3_Logger.errorMsg = Handler.ErrorMsg)
    (hinv : lm.logFile = 0 → lm.filePath = "")
    (hne : fileName ≠ lm.filePath) (hres : env.openResult = 0)
    (hb : SimpleLogManager_Msg_buffer env lm "ERROR" (some env.sourceFile) 162
            "SimpleLogManager_UseFileForLog" ("Failed to create log file " ++ fileName)
          = some (s, false)) :
    ∃ w' lm', SimpleLogManager_UseFileForLog env fileName w = some w' ∧
      w'.SimpleLogManagerSingleton = some lm' ∧
      lm'.logFile = 0 ∧ lm'.filePath = "" ∧
      debugChannel w'.trace = debugChannel w.trace ++ (if lm.errorQuiet then [] else [s]) := by
  have hmsg : ∀ (w0 : World) (rec : SimpleLogManager),
      w0.SimpleLogManagerSingleton = some rec →
      rec.fileLineQuiet = lm.fileLineQuiet → rec.recordTimestamp = lm.recordTimestamp →
      ∃ w', SimpleLogManager_Msg env "ERROR" (some env.sourceFile) 162
          "SimpleLogManager_UseFileForLog" ("Failed to create log file " ++ fileName) w0
          = some w' ∧
        w'.SimpleLogManagerSingleton = some { rec with lastMessage := s } ∧
        w'.trace = w0.trace ++ msgEvents rec.logFile s := by
    intro w0 rec h0 h1 h2
    exact ⟨_, Msg_eq env "ERROR" (some env.sourceFile) 162 "SimpleLogManager_UseFileForLog"
      ("Failed to create log file " ++ fileName) w0 rec s h0
      ((Msg_buffer_congr env rec lm _ _ _ _ _ h1 h2).trans hb), rfl, rfl⟩
  unfold SimpleLogManager_UseFileForLog
  rw [hs]
  simp only [hne, if_false]
  by_cases hopen : lm.logFile = 0
  · have hpath : lm.filePath = "" := hinv hopen
    cases hq : lm.errorQuiet
    · obtain ⟨w', hc, h1, h2⟩ := hmsg
        ((Os_FileOpen env fileName w).2.setLogger { lm with logFile := 0 })
        { lm with logFile := 0 } rfl rfl rfl
      refine ⟨w', _, ?_, h1, rfl, hpath, ?_⟩
      · simpa [Os_FileIsOpen, hopen, hs, hres, LOGERRORF, Os_FileOpen, World.setLogger, htab,
          Handler.call, SimpleLogManager_ErrorMsg, SimpleLogManager_IsErrorQuiet, hq,
          sprintf_failed] using hc
      · rw [h2]
        simp [Os_FileOpen, World.setLogger, debugChannel_append, debugChannel_msgEvents]
        simp [debugChannel, msgEvents, Os_FileIsOpen]
    · refine ⟨(Os_FileOpen env fileName w).2.setLogger { lm with logFile := 0 },
        { lm with logFile := 0 }, ?_, rfl, rfl, hpath, ?_⟩
      · simp [Os_FileIsOpen, hopen, hs, hres, LOGERRORF, Os_FileOpen, World.setLogger, htab,
          Handler.call, SimpleLogManager_ErrorMsg, SimpleLogManager_IsErrorQuiet, hq]
      · simp [debugChannel, Os_FileOpen, World.setLogger]
  · cases hq : lm.errorQuiet
    · obtain ⟨w', hc, h1, h2⟩ := hmsg
        ((Os_FileOpen env fileName
            ((Os_FileClose lm.logFile w).setLogger
              { SimpleLogManager.strcpy_filePath "" lm with logFile := 0 })).2.setLogger
          { SimpleLogManager.strcpy_filePath "" lm with logFile := 0 })
        { SimpleLogManager.strcpy_filePath "" lm with logFile := 0 } rfl rfl rfl
      refine ⟨w', _, ?_, h1, rfl, rfl, ?_⟩
      · simpa [Os_FileIsOpen, hopen, hs, hres, LOGERRORF, Os_FileOpen, World.setLogger, htab,
          Handler.call, SimpleLogManager_ErrorMsg, SimpleLogManager_IsErrorQuiet, hq,
          sprintf_failed, SimpleLogManager_CloseLogFile, Os_FileClose,
          SimpleLogManager.strcpy_filePath] using hc
      · rw [h2]
        simp [Os_FileOpen, World.setLogger, Os_FileClose, debugChannel_append,
          debugChannel_msgEvents]
        simp [debugChannel, msgEvents, Os_FileIsOpen]
    · refine ⟨(Os_FileOpen env fileName
            ((Os_FileClose lm.logFile w).setLogger
              { SimpleLogManager.strcpy_filePath "" lm with logFile := 0 })).2.setLogger
          { SimpleLogManager.strcpy_filePath "" lm with logFile := 0 },
        { SimpleLogManager.strcpy_filePath "" lm with logFile := 0 }, ?_, rfl, rfl, rfl, ?_⟩
      · simp [Os_FileIsOpen, hopen, hs, hres, LOGERRORF, Os_FileOpen, World.setLogger, htab,
          Handler.call, SimpleLogManager_ErrorMsg, SimpleLogManager_IsErrorQuiet, hq,
          SimpleLogManager_CloseLogFile, Os_FileClose, SimpleLogManager.strcpy_filePath]
      · simp [debugChannel, Os_FileOpen, World.setLogger, Os_FileClose]

/-- Every call after creation that stays within the arrays keeps "path
non-empty exactly when a file is open", as long as no file is opened under
the empty path: the file target stores the path after a successful open only,
and closing clears it. -/
theorem PathMatchesFile_apply (env : Env) (op : Op) (w : World) (hI : PathMatchesFile w)
    (hclock : env.ctimeResult.length < 256) (hcap : op.withinCapacity env = true)
    (hpath : ∀ fileName, op = Op.UseFileForLog fileName → fileName ≠ "") :
    ∃ w', op.apply env w = some w' ∧ PathMatchesFile w' := by
  obtain ⟨lm, hs, hinv⟩ := hI
  have hcall : ∀ (h : Handler) (file : Option String) (line : Int) (function msg : String),
      lineBound env file line function msg < bufferSize →
      ∃ w', h.call env file line function msg w = some w' ∧ PathMatchesFile w' := by
    intro h file line function msg hb
    obtain ⟨w', t, hc, h1, _, _, _⟩ :=
      Handler_call_frame h env file line function msg w lm hs (fun _ => hclock) hb
    exact ⟨w', hc, _, h1, hinv⟩
  cases op with
  | UseFileForLog fileName =>
    by_cases hp : fileName = lm.filePath
    · subst hp
      exact ⟨w, UseFileForLog_same_path env w lm hs, lm, hs, hinv⟩
    · obtain ⟨w', t, hc, h1, _, _, _⟩ :=
        UseFileForLog_other_path env fileName w lm hs hp (fun _ => hclock)
          (by simpa [Op.withinCapacity] using hcap)
      refine ⟨w', hc, _, h1, ?_⟩
      have hname : fileName ≠ "" := hpath fileName rfl
      by_cases hres : env.openResult = 0
      · by_cases hopen : lm.logFile = 0
        · have : lm.filePath = "" := by
            by_contra hne
            have := hinv.mp hne
            simp [Os_FileIsOpen, hopen] at this
          simp [hres, hopen, this, Os_FileIsOpen]
        · simp [hres, hopen, Os_FileIsOpen]
      · simp [hres, hname, Os_FileIsOpen]
  | CloseLogFile =>
    by_cases hopen : lm.logFile = 0
    · exact ⟨w, by simp [Op.apply, SimpleLogManager_CloseLogFile, hs, Os_FileIsOpen, hopen],
        lm, hs, hinv⟩
    · simp only [Op.apply, SimpleLogManager_CloseLogFile, hs, Os_FileIsOpen, bne_iff_ne, ne_eq,
        hopen, not_false_eq_true, if_true]
      exact ⟨_, rfl, _, rfl, by simp [Os_FileIsOpen, SimpleLogManager.strcpy_filePath]⟩
  | SetRecordTimeStamp enable =>
    simp only [Op.apply, SimpleLogManager_SetRecordTimeStamp, hs]
    exact ⟨_, rfl, _, rfl, hinv⟩
  | SetFileLineQuiet enable =>
    simp only [Op.apply, SimpleLogManager_SetFileLineQuiet, hs]
    exact ⟨_, rfl, _, rfl, hinv⟩
  | SetInfoQuiet enable =>
    simp only [Op.apply, SimpleLogManager_SetInfoQuiet, hs]
    exact ⟨_, rfl, _, rfl, hinv⟩
  | SetWarningQuiet enable =>
    simp only [Op.apply, SimpleLogManager_SetWarningQuiet, hs]
    exact ⟨_, rfl, _, rfl, hinv⟩
  | SetErrorQuiet enable =>
    simp only [Op.apply, SimpleLogManager_SetErrorQuiet, hs]
    exact ⟨_, rfl, _, rfl, hinv⟩
  | SetFailedAssertQuiet enable =>
    simp only [Op.apply, SimpleLogManager_SetFailedAssertQuiet, hs]
    exact ⟨_, rfl, _, rfl, hinv⟩
  | SetDebugMsgQuiet enable =>
    simp only [Op.apply, SimpleLogManager_SetDebugMsgQuiet, hs]
    exact ⟨_, rfl, _, rfl, hinv⟩
  | errorMsg file line function msg =>
    exact hcall _ file line function msg (by simpa [Op.withinCapacity] using hcap)
  | warningMsg file line function msg =>
    exact hcall _ file line function msg (by simpa [Op.withinCapacity] using hcap)
  | infoMsg file line function msg =>
    exact hcall _ file line function msg (by simpa [Op.withinCapacity] using hcap)
  | debugMsg file line function msg =>
    exact hcall _ file line function msg (by simpa [Op.withinCapacity] using hcap)
  | failedAssert file line function msg =>
    exact hcall _ file line function msg (by simpa [Op.withinCapacity] using hcap)

/-- When the default file opens, `SimpleLogManager_Alloc` establishes "path
non-empty exactly when a file is open". -/
theorem PathMatchesFile_Alloc (env : Env) (w : World) (h0 : w.SimpleLogManagerSingleton = none)
    (hm : env.callocOk = true) (hx : env.mutexCreateOk = true)
    (hd : env.currentDir.length + 8 < bufferSize) (hres : env.openResult ≠ 0) :
    ∃ w1, SimpleLogManager_Alloc env w = some w1 ∧ PathMatchesFile w1 := by
  simp only [SimpleLogManager_Alloc, h0, hm, hx, hd, if_true, Bool.true_eq_false, if_false]
  refine ⟨_, rfl, _, rfl, ?_⟩
  have hne : env.currentDir ++ "log.log" ≠ "" := by
    intro h
    have := congrArg String.length h
    simp only [String.length_append] at this
    have h7 : "log.log".length = 7 := by decide
    have h0 : "".length = 0 := by decide
    omega
  simp [Os_FileOpen, Os_FileIsOpen, hres, hne]

/-! ## Defects the code shows on concrete inputs -/

/-- C6 (code at the failing input): when the default log file cannot be opened,
`SimpleLogManager_Alloc` publishes a logger whose `filePath` holds the path of
that file although no file is open. -/
theorem Alloc_failed_open_keeps_path :
    ∃ w lm, SimpleLogManager_Alloc readOnlyEnv bootWorld = some w ∧
      w.SimpleLogManagerSingleton = some lm ∧
      lm.filePath = "/ro/log.log" ∧ lm.filePath ≠ "" ∧
      Os_FileIsOpen lm.logFile = false := by
  refine ⟨_, _, rfl, rfl, ?_, ?_, ?_⟩ <;> decide

/-- C8 (code at the failing input): after `SimpleLogManager_Alloc` failed to open
the default file, a failing `SimpleLogManager_UseFileForLog` with another path
leaves the stale path of the default file in `filePath`; no file is open and
one error message is emitted. -/
theorem UseFileForLog_failed_open_keeps_stale_path :
    ∃ w1 w2 lm, SimpleLogManager_Alloc readOnlyEnv bootWorld = some w1 ∧
      SimpleLogManager_UseFileForLog readOnlyEnv "/x/app.log" w1 = some w2 ∧
      w2.SimpleLogManagerSingleton = some lm ∧
      Os_FileIsOpen lm.logFile = false ∧
      lm.filePath = "/ro/log.log" ∧ lm.filePath ≠ "" ∧
      debugChannel w2.trace = ["ERROR: Failed to create log file /x/app.log\n"] := by
  refine ⟨_, _, _, rfl, rfl, rfl, ?_, ?_, ?_, ?_⟩ <;> decide

/-- The text put into the buffer is never shorter than tag, message and the
three characters around them: nothing is cut. -/
theorem Msg_buffer_length_ge (env : Env) (lm : SimpleLogManager) (level : String)
    (file : Option String) (line : Int) (function msg s : String) (overrun : Bool)
    (hb : SimpleLogManager_Msg_buffer env lm level file line function msg = some (s, overrun)) :
    level.length + msg.length + 3 ≤ s.length := by
  unfold SimpleLogManager_Msg_buffer at hb
  simp only [sprintf_level_msg, sprintf_level_file_msg, sprintf_timestamp] at hb
  have h1 : ": ".length = 2 := by decide
  have h2 : "\n".length = 1 := by decide
  cases ht : lm.recordTimestamp <;> cases hq : lm.fileLineQuiet <;> cases file <;>
    simp only [ht, hq] at hb
  all_goals first
    | (simp at hb
       obtain ⟨hb, _⟩ := hb
       subst hb
       simp only [String.length_append]
       omega)
    | (cases hg : GetTimeStamp env <;> simp [hg] at hb
       obtain ⟨hb, _⟩ := hb
       subst hb
       simp only [String.length_append]
       omega)

theorem longMessage_length : longMessage.length = 2048 :=
  List.length_replicate 2048 'a'

theorem longLine_length : ("ERROR: " ++ longMessage ++ "\n").length = 2056 := by
  have h1 : "ERROR: ".length = 7 := by decide
  have h3 : "\n".length = 1 := by decide
  rw [String.length_append, String.length_append, longMessage_length, h1, h3]

theorem longLine_not_fits : fits ("ERROR: " ++ longMessage ++ "\n") = false := by
  unfold fits
  rw [longLine_length]
  decide

theorem longLine_buffer :
    SimpleLogManager_Msg_buffer goodEnv freshLogger Level.error.tag none 0 "main" longMessage
      = some ("ERROR: " ++ longMessage ++ "\n", true) := by
  have h : sprintf "%s: %s\n" [FormatArg.str "ERROR", FormatArg.str longMessage]
      = "ERROR: " ++ longMessage ++ "\n" := sprintf_level_msg "ERROR" longMessage
  show some (sprintf "%s: %s\n" [FormatArg.str "ERROR", FormatArg.str longMessage],
    !fits (sprintf "%s: %s\n" [FormatArg.str "ERROR", FormatArg.str longMessage])) = _
  rw [h, longLine_not_fits]
  rfl

/-- C5 (code at the failing input): a message of 2048 characters is formatted
in full; the text handed to the 2048-byte buffer and to `lastMessage` has 2056
characters, more than the 2047 the buffer can hold. -/
theorem overlong_message_is_not_truncated :
    ∃ w' text, SimpleLogManager_ErrorMsg goodEnv none 0 "main" longMessage liveWorld = some w' ∧
      w'.lastMessage = some text ∧
      text = "ERROR: " ++ longMessage ++ "\n" ∧
      text.length = 2056 ∧ ¬ text.length ≤ bufferSize - 1 := by
  refine ⟨_, _, entry_eq_any Level.error goodEnv none 0 "main" longMessage liveWorld freshLogger
    _ _ rfl rfl longLine_buffer, rfl, rfl, longLine_length, ?_⟩
  show ¬ ("ERROR: " ++ longMessage ++ "\n").length ≤ bufferSize - 1
  rw [longLine_length]
  decide

/-- The same call shows the damage the layout of the record fixes: the eight
characters past `lastMessage` and the terminator are written over `filePath`,
and both overruns are on record. -/
theorem overlong_message_overwrites_filePath :
    ∃ w' lm, SimpleLogManager_ErrorMsg goodEnv none 0 "main" longMessage liveWorld = some w' ∧
      w'.SimpleLogManagerSingleton = some lm ∧
      lm.filePath = "aaaaaaa\n" ∧
      overruns w'.trace = ["buffer", "lastMessage"] := by
  refine ⟨_, _, entry_eq_any Level.error goodEnv none 0 "main" longMessage liveWorld freshLogger
    _ _ rfl rfl longLine_buffer, rfl, ?_, ?_⟩
  · have hdata : ("ERROR: " ++ longMessage ++ "\n").data
        = "ERROR: ".data ++ (List.replicate 2048 'a' ++ "\n".data) := by
      rw [String.data_append, String.data_append, List.append_assoc]
      rfl
    have hdrop : ("ERROR: " ++ longMessage ++ "\n").data.drop bufferSize
        = List.replicate 7 'a' ++ "\n".data := by
      rw [hdata, List.drop_append_eq_append_drop, List.drop_append_eq_append_drop,
        List.drop_replicate, List.length_replicate]
      rw [List.drop_eq_nil_of_le (show "ERROR: ".data.length ≤ bufferSize by decide)]
      have e2 : 2048 - (bufferSize - "ERROR: ".data.length) = 7 := by decide
      have e3 : bufferSize - "ERROR: ".data.length - 2048 = 0 := by decide
      rw [e2, e3]
      rfl
    simp only [SimpleLogManager.strcpy_lastMessage, longLine_not_fits, hdrop]
    decide
  · simp only [overruns_append, msgEventsAny, longLine_not_fits]
    decide

/-! ## Creation, use, destruction -/

end LogManager
